import Mathlib

/-!
Shallow embedding of `fwsp-cacher` (src/index.js): a thin wrapper around a
Redis store offering JSON-serialized get/set/expire/delete with a
configurable key namespace, plus a read-through fallback helper.

Modelling choices:
* Values are modelled abstractly (`Val`); the store holds serialized text,
  modelled by `JsonText`, which records whether the stored string is valid
  JSON (and which value it denotes) or malformed.
* Each operation opens its own connection; the store-side responses for one
  call are an environment `StoreEnv` (selection outcome, GET/SETEX/EXPIRE/DEL
  outcomes).  An operation run is summarised by `OpRun`: the promise
  settlement attempts it makes in program order (a JS promise keeps only the
  first), the commands it sends to the store, and its connection bookkeeping
  (whether a client was created, how many times `closeDB` ran on the real
  client, and how many times `closeDB` was called with a `null` handle, which
  in the source throws and closes nothing).
-/

/-- Abstract cache values ("any JSON-representable structure"). -/
structure Val where
  repr : String
deriving DecidableEq

/-- Errors surfaced by the redis client (connection/selection or command). -/
structure Err where
  msg : String
deriving DecidableEq

/-- A string stored in redis, as seen by deserialization: either the valid
JSON text denoting value `v`, or a malformed string `s`. -/
inductive JsonText where
  | valid (v : Val)
  | malformed (s : String)
deriving DecidableEq

/-- Modelled from the spec: `utils.safeJSONParse` comes from the external
package `@flywheelsports/jsutils`, which is not part of this repository.
Per the spec (§4.2, §7), deserialization is defensive: a missing string
(redis replies null on an absent key) and a malformed string both yield the
absent/null marker; valid JSON yields the denoted value. -/
def safeJSONParse : Option JsonText → Option Val
  | none => none
  | some (.valid v) => some v
  | some (.malformed _) => none

/-- One settlement attempt of a JS promise: `resolve` with a payload, or
`reject` with an optional payload (`reject()` with no argument is `rej none`). -/
inductive Settle (α : Type) where
  | res (v : α)
  | rej (e : Option Err)
deriving DecidableEq

/-- A JS promise settles at most once: the first attempt wins, later
`resolve`/`reject` calls are no-ops.  `none` means the promise never settles. -/
def promiseOutcome {α : Type} (attempts : List (Settle α)) : Option (Settle α) :=
  attempts.head?

/-- A command sent to the redis store, with the key string it addresses. -/
inductive Cmd where
  | get (k : String)
  | setex (k : String) (ttl : Nat) (v : JsonText)
  | expire (k : String) (ttl : Nat)
  | del (k : String)
deriving DecidableEq

/-- The key string a command addresses on the wire. -/
def Cmd.key : Cmd → String
  | .get k => k
  | .setex k _ _ => k
  | .expire k _ => k
  | .del k => k

/-- Whether a command writes a cache entry (only SETEX does). -/
def Cmd.isWrite : Cmd → Bool
  | .setex _ _ _ => true
  | _ => false

/-- Configuration argument passed to `init` (`db` may be omitted). -/
structure ConfigArg where
  url : String
  port : Nat
  db : Option Nat
deriving DecidableEq

/-- Held configuration after `CacheDB.init` merged the `db: 1` default. -/
structure Config where
  url : String
  port : Nat
  db : Nat
deriving DecidableEq

/-- `CacheDB.init`: `this.config = Object.assign({db: 1}, config)`. -/
def CacheDB.init (c : ConfigArg) : Config :=
  { url := c.url, port := c.port, db := c.db.getD 1 }

/-- Instance state of a `Cacher` object.  Before `init` runs, `config` and
`cachePrefix` are JS `undefined`, modelled by `none`.  The field embedding
the source's `cachePrefix` is named `cachePfx` here. -/
structure CacherState where
  config : Option Config
  cachePfx : Option String
deriving DecidableEq

/-- `new Cacher()`: a fresh object; no field set yet. -/
def Cacher.new : CacherState :=
  { config := none, cachePfx := none }

/-- `Cacher.init`: `super.init(config); this.cachePrefix = 'cacher';`. -/
def Cacher.init (s : CacherState) (c : ConfigArg) : CacherState :=
  { s with config := some (CacheDB.init c), cachePfx := some "cacher" }

/-- `setCachePrefix(name)`: `this.cachePrefix = name;` (embedded under the
name `setCachePfx`). -/
def Cacher.setCachePfx (s : CacherState) (name : String) : CacherState :=
  { s with cachePfx := some name }

/-- JS template-literal coercion of a possibly-undefined string. -/
def jsStringOf : Option String → String
  | none => "undefined"
  | some s => s

/-- The namespaced key each operation computes:
`const hKeyLabel = (template) cachePrefix : key`. -/
def Cacher.hKeyLabel (s : CacherState) (key : String) : String :=
  jsStringOf s.cachePfx ++ ":" ++ key

instance {ε α : Type} [DecidableEq ε] [DecidableEq α] :
    DecidableEq (Except ε α) := fun a b =>
  match a, b with
  | .ok x, .ok y =>
      if h : x = y then isTrue (by rw [h])
      else isFalse (fun hc => h (by injection hc))
  | .error x, .error y =>
      if h : x = y then isTrue (by rw [h])
      else isFalse (fun hc => h (by injection hc))
  | .ok _, .error _ => isFalse (fun hc => Except.noConfusion hc)
  | .error _, .ok _ => isFalse (fun hc => Except.noConfusion hc)

/-- Store-side responses for one operation's connection:
* `selectErr`: `some e` means `db.select` calls back with error `e`, so
  `openDB`'s promise rejects with `e` (the client was already created);
  `none` means `openDB` resolves.
* `getResp`: the GET reply — an error, or the stored string (`none` = absent).
* `setexErr`: the SETEX reply (`none` = OK).
* `expireResp`: the EXPIRE reply — an error, or the integer result.
* `delErr`: the DEL reply (`none` = OK). -/
structure StoreEnv where
  selectErr : Option Err
  getResp : Except Err (Option JsonText)
  setexErr : Option Err
  expireResp : Except Err Nat
  delErr : Option Err
deriving DecidableEq

/-- Observable summary of one operation call. -/
structure OpRun (α : Type) where
  /-- Settlement attempts on this call's promise, in program order. -/
  attempts : List (Settle α)
  /-- Commands issued to the store. -/
  cmds : List Cmd
  /-- Whether a redis client was created (`redis.createClient` in `openDB`
  runs before the select, so it is created even when selection fails). -/
  created : Bool
  /-- Number of `closeDB` calls on the real client. -/
  closed : Nat
  /-- Number of `closeDB(null)` calls (the `.catch` paths run
  `this.closeDB(db)` while `db` is still `null`; `null.end(0)` throws and
  closes nothing). -/
  closeNull : Nat
deriving DecidableEq

/-- `Cacher.getData(key)` (src/index.js lines 111-132). -/
def Cacher.getData (s : CacherState) (key : String) (env : StoreEnv) :
    OpRun (Option Val) :=
  let h := Cacher.hKeyLabel s key
  match env.selectErr with
  | some e =>
      { attempts := [.rej (some e)], cmds := [], created := true,
        closed := 0, closeNull := 1 }
  | none =>
      match env.getResp with
      | .error e =>
          { attempts := [.rej (some e)], cmds := [.get h], created := true,
            closed := 1, closeNull := 0 }
      | .ok r =>
          { attempts := [.res (safeJSONParse r)], cmds := [.get h],
            created := true, closed := 1, closeNull := 0 }

/-- `Cacher.setData(key, data, cacheDurationInSeconds)` (lines 142-160).
`JSON.stringify(data)` always produces the valid JSON text of `data`. -/
def Cacher.setData (s : CacherState) (key : String) (data : Val) (ttl : Nat)
    (env : StoreEnv) : OpRun Unit :=
  let h := Cacher.hKeyLabel s key
  match env.selectErr with
  | some e =>
      { attempts := [.rej (some e)], cmds := [], created := true,
        closed := 0, closeNull := 1 }
  | none =>
      match env.setexErr with
      | some e =>
          { attempts := [.rej (some e)], cmds := [.setex h ttl (.valid data)],
            created := true, closed := 1, closeNull := 0 }
      | none =>
          { attempts := [.res ()], cmds := [.setex h ttl (.valid data)],
            created := true, closed := 1, closeNull := 0 }

/-- Payload with which `setTTL`'s promise can be settled: the first
`resolve` carries the deserialized value, the later `resolve` inside
`setExpire` carries the integer EXPIRE result. -/
inductive TTLPayload where
  | value (v : Option Val)
  | expireResult (n : Nat)
deriving DecidableEq

/-- `CacheDB.setExpire(db, hKeyLabel, secs, resolve, reject)` (lines 64-69):
issues EXPIRE; on reply it settles (`resolve(result)` or `reject(error)`)
and then closes the connection.  Returns the settlement attempts it makes
and the number of closes. -/
def CacheDB.setExpire (resp : Except Err Nat) :
    List (Settle TTLPayload) × Nat :=
  match resp with
  | .ok r => ([.res (.expireResult r)], 1)
  | .error e => ([.rej (some e)], 1)

/-- `Cacher.setTTL(key, cacheDurationInSeconds)` (lines 169-190).  Note the
source has no `.catch` on `openDB` here: on selection failure the promise
never settles and nothing is closed.  On a GET error it rejects without
closing; on an absent key it calls `reject()` with no payload and closes;
on a present key it resolves with the deserialized value and only then runs
`setExpire`, whose later settle attempts are no-ops. -/
def Cacher.setTTL (s : CacherState) (key : String) (ttl : Nat)
    (env : StoreEnv) : OpRun TTLPayload :=
  let h := Cacher.hKeyLabel s key
  match env.selectErr with
  | some _ =>
      { attempts := [], cmds := [], created := true, closed := 0,
        closeNull := 0 }
  | none =>
      match env.getResp with
      | .error e =>
          { attempts := [.rej (some e)], cmds := [.get h], created := true,
            closed := 0, closeNull := 0 }
      | .ok none =>
          { attempts := [.rej none], cmds := [.get h], created := true,
            closed := 1, closeNull := 0 }
      | .ok (some jt) =>
          let ex := CacheDB.setExpire env.expireResp
          { attempts := .res (.value (safeJSONParse (some jt))) :: ex.1,
            cmds := [.get h, .expire h ttl], created := true,
            closed := ex.2, closeNull := 0 }

/-- `Cacher.deleteData(key)` (lines 198-213).  The source never calls
`closeDB` here, and has no `.catch` on `openDB` (selection failure leaves
the promise pending). -/
def Cacher.deleteData (s : CacherState) (key : String) (env : StoreEnv) :
    OpRun Unit :=
  let h := Cacher.hKeyLabel s key
  match env.selectErr with
  | some _ =>
      { attempts := [], cmds := [], created := true, closed := 0,
        closeNull := 0 }
  | none =>
      match env.delErr with
      | some e =>
          { attempts := [.rej (some e)], cmds := [.del h], created := true,
            closed := 0, closeNull := 0 }
      | none =>
          { attempts := [.res ()], cmds := [.del h], created := true,
            closed := 0, closeNull := 0 }

/-- Observable summary of one `getDataWithFallback` call: its promise
outcome (`none` = never settles), how many times `fallback` was invoked,
and all store commands issued by the inner `getData`/`setData` calls. -/
structure FbRun where
  outcome : Option (Settle Val)
  fallbackCalls : Nat
  cmds : List Cmd
deriving DecidableEq

/-- `Cacher.getDataWithFallback(key, cacheDurationInSeconds, fallback)`
(lines 224-242).  `fallback` is the outcome of the caller-supplied promise;
`envGet` and `envSet` are the store responses for the inner `getData` and
`setData` connections.  Mirrors the source chain: on a non-null `getData`
result resolve with it; otherwise run `fallback()`, then `setData`, then
resolve with the fallback result; any rejection along the chain reaches
`.catch(reject)`. -/
def Cacher.getDataWithFallback (s : CacherState) (key : String) (ttl : Nat)
    (fallback : Settle Val) (envGet envSet : StoreEnv) : FbRun :=
  let g := Cacher.getData s key envGet
  match promiseOutcome g.attempts with
  | none => { outcome := none, fallbackCalls := 0, cmds := g.cmds }
  | some (.rej e) =>
      { outcome := some (.rej e), fallbackCalls := 0, cmds := g.cmds }
  | some (.res r) =>
      match r with
      | some v =>
          { outcome := some (.res v), fallbackCalls := 0, cmds := g.cmds }
      | none =>
          match fallback with
          | .rej e =>
              { outcome := some (.rej e), fallbackCalls := 1, cmds := g.cmds }
          | .res fv =>
              let sd := Cacher.setData s key fv ttl envSet
              match promiseOutcome sd.attempts with
              | none =>
                  { outcome := none, fallbackCalls := 1,
                    cmds := g.cmds ++ sd.cmds }
              | some (.rej e) =>
                  { outcome := some (.rej e), fallbackCalls := 1,
                    cmds := g.cmds ++ sd.cmds }
              | some (.res _) =>
                  { outcome := some (.res fv), fallbackCalls := 1,
                    cmds := g.cmds ++ sd.cmds }

/-! ## Concrete sample inputs used by witnesses and counterexamples -/

/-- A sample `init` configuration (the README example). -/
def sampleConfig : ConfigArg :=
  { url := "127.0.0.1", port := 6379, db := none }

/-- A freshly initialized cacher instance. -/
def sampleCacher : CacherState :=
  Cacher.init Cacher.new sampleConfig

/-- Store responses: selection succeeds, GET replies absent, every command
succeeds. -/
def envMiss : StoreEnv :=
  { selectErr := none, getResp := .ok none, setexErr := none,
    expireResp := .ok 1, delErr := none }

/-- Store responses: GET replies with a string that is not valid JSON. -/
def envMalformed : StoreEnv :=
  { selectErr := none, getResp := .ok (some (.malformed "not json")),
    setexErr := none, expireResp := .ok 1, delErr := none }

/-- Store responses: GET replies with the valid JSON text of a value. -/
def envHit : StoreEnv :=
  { selectErr := none, getResp := .ok (some (.valid { repr := "v" })),
    setexErr := none, expireResp := .ok 1, delErr := none }

/-- Store responses: GET fails with a command-level error. -/
def envGetErr : StoreEnv :=
  { selectErr := none, getResp := .error { msg := "get failed" },
    setexErr := none, expireResp := .ok 1, delErr := none }

/-- Store responses: GET replies absent and SETEX fails. -/
def envSetexErr : StoreEnv :=
  { selectErr := none, getResp := .ok none,
    setexErr := some { msg := "write failed" }, expireResp := .ok 1,
    delErr := none }

/-- Store responses: GET replies with a stored value and EXPIRE fails. -/
def envExpireErr : StoreEnv :=
  { selectErr := none, getResp := .ok (some (.valid { repr := "v" })),
    setexErr := none, expireResp := .error { msg := "expire failed" },
    delErr := none }

/-! ## Claim theorems -/

/-- C3: for every key whose stored string is not valid JSON, `getData`
resolves with the absent/null marker (a successful result) and never
rejects with a parse error. -/
theorem getData_malformed_resolves_null (s : CacherState) (key : String)
    (env : StoreEnv) (str : String)
    (hsel : env.selectErr = none)
    (hget : env.getResp = .ok (some (.malformed str))) :
    promiseOutcome (Cacher.getData s key env).attempts = some (.res none) := by
  simp [Cacher.getData, promiseOutcome, hsel, hget, safeJSONParse]

/-- Witness for C3 at a concrete malformed stored string. -/
theorem getData_malformed_resolves_null_witness :
    envMalformed.selectErr = none ∧
    envMalformed.getResp = .ok (some (.malformed "not json")) ∧
    promiseOutcome (Cacher.getData sampleCacher "k" envMalformed).attempts
      = some (.res none) :=
  ⟨rfl, rfl,
    getData_malformed_resolves_null sampleCacher "k" envMalformed "not json"
      rfl rfl⟩

/-- C4: when the key is absent, `getData` resolves with the absent/null
marker; and whenever selection succeeded, the call rejects exactly when the
GET command itself errored (carrying that error) and otherwise resolves —
a miss and a failure travel on different channels. -/
theorem getData_miss_is_success (s : CacherState) (key : String)
    (env : StoreEnv) (hsel : env.selectErr = none) :
    (env.getResp = .ok none →
      promiseOutcome (Cacher.getData s key env).attempts = some (.res none)) ∧
    (promiseOutcome (Cacher.getData s key env).attempts =
      (match env.getResp with
       | .error er => some (.rej (some er))
       | .ok r => some (.res (safeJSONParse r)))) := by
  constructor
  · intro h0
    simp [Cacher.getData, promiseOutcome, hsel, h0, safeJSONParse]
  · cases hresp : env.getResp <;>
      simp [Cacher.getData, promiseOutcome, hsel, hresp]

/-- Witness for C4 at a concrete absent key. -/
theorem getData_miss_is_success_witness :
    envMiss.selectErr = none ∧
    ((envMiss.getResp = .ok none →
      promiseOutcome (Cacher.getData sampleCacher "k" envMiss).attempts
        = some (.res none)) ∧
    (promiseOutcome (Cacher.getData sampleCacher "k" envMiss).attempts =
      (match envMiss.getResp with
       | .error er => some (.rej (some er))
       | .ok r => some (.res (safeJSONParse r))))) :=
  ⟨rfl, getData_miss_is_success sampleCacher "k" envMiss rfl⟩

/-- C5: `setTTL` on an absent key rejects with no payload. -/
theorem setTTL_absent_rejects_no_payload (s : CacherState) (key : String)
    (ttl : Nat) (env : StoreEnv)
    (hsel : env.selectErr = none) (hmiss : env.getResp = .ok none) :
    promiseOutcome (Cacher.setTTL s key ttl env).attempts =
      some (.rej none) := by
  simp [Cacher.setTTL, promiseOutcome, hsel, hmiss]

/-- Witness for C5 at a concrete absent key. -/
theorem setTTL_absent_rejects_no_payload_witness :
    envMiss.selectErr = none ∧ envMiss.getResp = .ok none ∧
    promiseOutcome (Cacher.setTTL sampleCacher "k" 10 envMiss).attempts
      = some (.rej none) :=
  ⟨rfl, rfl, setTTL_absent_rejects_no_payload sampleCacher "k" 10 envMiss
    rfl rfl⟩

/-- C9: `setCachePrefix p` stores `p`, and a subsequent `init` resets the
prefix to the literal string cacher, discarding the custom prefix. -/
theorem init_resets_cache_namespace (s : CacherState) (p : String)
    (c : ConfigArg) :
    (Cacher.setCachePfx s p).cachePfx = some p ∧
    (Cacher.init (Cacher.setCachePfx s p) c).cachePfx = some "cacher" :=
  ⟨rfl, rfl⟩

/-- C10: on a present key, `setTTL` first resolves with the deserialized
stored value and only then runs the EXPIRE step; when EXPIRE fails the
rejection attempt comes second and the promise outcome is still the
resolved value — the expire-step error is never observable. -/
theorem setTTL_present_resolves_before_expire (s : CacherState)
    (key : String) (ttl : Nat) (env : StoreEnv) (jt : JsonText) (e : Err)
    (hsel : env.selectErr = none) (hget : env.getResp = .ok (some jt))
    (hexp : env.expireResp = .error e) :
    (Cacher.setTTL s key ttl env).attempts =
      [.res (.value (safeJSONParse (some jt))), .rej (some e)] ∧
    promiseOutcome (Cacher.setTTL s key ttl env).attempts =
      some (.res (.value (safeJSONParse (some jt)))) := by
  simp [Cacher.setTTL, CacheDB.setExpire, promiseOutcome, hsel, hget, hexp]

/-- Witness for C10 at a concrete stored value and failing EXPIRE. -/
theorem setTTL_present_resolves_before_expire_witness :
    envExpireErr.selectErr = none ∧
    envExpireErr.getResp = .ok (some (.valid { repr := "v" })) ∧
    envExpireErr.expireResp = .error { msg := "expire failed" } ∧
    ((Cacher.setTTL sampleCacher "k" 10 envExpireErr).attempts =
      [.res (.value (safeJSONParse (some (.valid { repr := "v" })))),
       .rej (some { msg := "expire failed" })] ∧
    promiseOutcome (Cacher.setTTL sampleCacher "k" 10 envExpireErr).attempts =
      some (.res (.value (safeJSONParse (some (.valid { repr := "v" })))))) :=
  ⟨rfl, rfl, rfl,
    setTTL_present_resolves_before_expire sampleCacher "k" 10 envExpireErr
      (.valid { repr := "v" }) { msg := "expire failed" } rfl rfl rfl⟩

/-- C6: on a cache hit (the stored string deserializes to a non-null value
`v`), `getDataWithFallback` resolves with `v`, never invokes `fallback`,
and issues no cache-writing command. -/
theorem getDataWithFallback_hit (s : CacherState) (key : String) (ttl : Nat)
    (fallback : Settle Val) (envGet envSet : StoreEnv) (jt : JsonText)
    (v : Val)
    (hsel : envGet.selectErr = none)
    (hget : envGet.getResp = .ok (some jt))
    (hparse : safeJSONParse (some jt) = some v) :
    (Cacher.getDataWithFallback s key ttl fallback envGet envSet).outcome
      = some (.res v) ∧
    (Cacher.getDataWithFallback s key ttl fallback envGet envSet).fallbackCalls
      = 0 ∧
    ((Cacher.getDataWithFallback s key ttl fallback envGet envSet).cmds.all
      (fun c => !Cmd.isWrite c)) = true := by
  simp [Cacher.getDataWithFallback, Cacher.getData, promiseOutcome, hsel,
    hget, hparse, Cmd.isWrite]

/-- Witness for C6 at a concrete stored value. -/
theorem getDataWithFallback_hit_witness :
    envHit.selectErr = none ∧
    envHit.getResp = .ok (some (.valid { repr := "v" })) ∧
    safeJSONParse (some (.valid { repr := "v" })) = some { repr := "v" } ∧
    ((Cacher.getDataWithFallback sampleCacher "k" 15 (.res { repr := "r" })
        envHit envMiss).outcome = some (.res { repr := "v" }) ∧
     (Cacher.getDataWithFallback sampleCacher "k" 15 (.res { repr := "r" })
        envHit envMiss).fallbackCalls = 0 ∧
     ((Cacher.getDataWithFallback sampleCacher "k" 15 (.res { repr := "r" })
        envHit envMiss).cmds.all (fun c => !Cmd.isWrite c)) = true) :=
  ⟨rfl, rfl, rfl,
    getDataWithFallback_hit sampleCacher "k" 15 (.res { repr := "r" })
      envHit envMiss (.valid { repr := "v" }) { repr := "v" } rfl rfl rfl⟩

/-- C7: whenever the inner `getData` rejects (a store/connection error,
never a miss), `getDataWithFallback` rejects with the same error and the
fallback is never invoked. -/
theorem getDataWithFallback_propagates_store_error (s : CacherState)
    (key : String) (ttl : Nat) (fallback : Settle Val)
    (envGet envSet : StoreEnv) (e : Option Err)
    (hrej : promiseOutcome (Cacher.getData s key envGet).attempts
      = some (.rej e)) :
    (Cacher.getDataWithFallback s key ttl fallback envGet envSet).outcome
      = some (.rej e) ∧
    (Cacher.getDataWithFallback s key ttl fallback envGet envSet).fallbackCalls
      = 0 := by
  simp [Cacher.getDataWithFallback, hrej]

/-- Witness for C7 at a concrete failing GET. -/
theorem getDataWithFallback_propagates_store_error_witness :
    promiseOutcome (Cacher.getData sampleCacher "k" envGetErr).attempts
      = some (.rej (some { msg := "get failed" })) ∧
    ((Cacher.getDataWithFallback sampleCacher "k" 15 (.res { repr := "r" })
        envGetErr envMiss).outcome
      = some (.rej (some { msg := "get failed" })) ∧
     (Cacher.getDataWithFallback sampleCacher "k" 15 (.res { repr := "r" })
        envGetErr envMiss).fallbackCalls = 0) :=
  ⟨rfl,
    getDataWithFallback_propagates_store_error sampleCacher "k" 15
      (.res { repr := "r" }) envGetErr envMiss
      (some { msg := "get failed" }) rfl⟩

/-- C1 is false on the code: on a miss, with a fallback that resolves with
`r` and a SETEX that fails, `getDataWithFallback` rejects with the write
error instead of resolving with `r` — the cache-write failure IS surfaced. -/
theorem getDataWithFallback_write_failure_cex :
    (Cacher.getDataWithFallback sampleCacher "k" 15 (.res { repr := "r" })
        envMiss envSetexErr).outcome
      = some (.rej (some { msg := "write failed" })) ∧
    ¬ (Cacher.getDataWithFallback sampleCacher "k" 15 (.res { repr := "r" })
        envMiss envSetexErr).outcome
      = some (.res { repr := "r" }) := by
  decide

/-- C1 amended: on a miss with a fallback resolving `fv`, the call resolves
with `fv` exactly when the `setData` write succeeds; when SETEX fails the
write error is surfaced as the call's rejection.  Either way the fallback
ran once. -/
theorem getDataWithFallback_write_outcome (s : CacherState) (key : String)
    (ttl : Nat) (fv : Val) (envGet envSet : StoreEnv)
    (hmiss : promiseOutcome (Cacher.getData s key envGet).attempts
      = some (.res none))
    (hsel2 : envSet.selectErr = none) :
    (Cacher.getDataWithFallback s key ttl (.res fv) envGet envSet).outcome =
      (match envSet.setexErr with
       | none => some (.res fv)
       | some e => some (.rej (some e))) ∧
    (Cacher.getDataWithFallback s key ttl (.res fv) envGet envSet).fallbackCalls
      = 1 := by
  have hm : (Cacher.getData s key envGet).attempts.head? =
      some (Settle.res none) := hmiss
  cases hw : envSet.setexErr <;>
    simp [Cacher.getDataWithFallback, Cacher.setData, promiseOutcome, hm,
      hsel2, hw]

/-- Witness for the amended C1 at a concrete miss and failing SETEX. -/
theorem getDataWithFallback_write_outcome_witness :
    promiseOutcome (Cacher.getData sampleCacher "k" envMiss).attempts
      = some (.res none) ∧
    envSetexErr.selectErr = none ∧
    ((Cacher.getDataWithFallback sampleCacher "k" 15 (.res { repr := "r" })
        envMiss envSetexErr).outcome =
      (match envSetexErr.setexErr with
       | none => some (.res { repr := "r" })
       | some e => some (.rej (some e))) ∧
     (Cacher.getDataWithFallback sampleCacher "k" 15 (.res { repr := "r" })
        envMiss envSetexErr).fallbackCalls = 1) :=
  ⟨rfl, rfl,
    getDataWithFallback_write_outcome sampleCacher "k" 15 { repr := "r" }
      envMiss envSetexErr rfl rfl⟩

/-- C2 is false on the code: `deleteData` completes successfully on a real
connection it created and never closes it. -/
theorem deleteData_never_closes_cex :
    (Cacher.deleteData sampleCacher "k" envMiss).created = true ∧
    (Cacher.deleteData sampleCacher "k" envMiss).closed = 0 ∧
    promiseOutcome (Cacher.deleteData sampleCacher "k" envMiss).attempts
      = some (.res ()) := by
  decide

/-- C2 amended: once database selection succeeds, `getData` and `setData`
close their connection on every outcome, and `setTTL` closes it unless the
GET command errors (a GET error leaves the connection open); `deleteData`
never closes its connection. -/
theorem connection_close_discipline (s : CacherState) (key : String)
    (data : Val) (ttl : Nat) (env : StoreEnv)
    (hsel : env.selectErr = none) :
    (Cacher.getData s key env).closed = 1 ∧
    (Cacher.setData s key data ttl env).closed = 1 ∧
    (Cacher.setTTL s key ttl env).closed =
      (match env.getResp with
       | .error _ => 0
       | .ok _ => 1) ∧
    (Cacher.deleteData s key env).closed = 0 := by
  refine ⟨?_, ?_, ?_, ?_⟩
  · cases hresp : env.getResp <;> simp [Cacher.getData, hsel, hresp]
  · cases hw : env.setexErr <;> simp [Cacher.setData, hsel, hw]
  · cases hresp : env.getResp with
    | error e => simp [Cacher.setTTL, hsel, hresp]
    | ok r =>
        cases r with
        | none => simp [Cacher.setTTL, hsel, hresp]
        | some jt =>
            cases hexp : env.expireResp <;>
              simp [Cacher.setTTL, CacheDB.setExpire, hsel, hresp, hexp]
  · cases hd : env.delErr <;> simp [Cacher.deleteData, hsel, hd]

/-- Witness for the amended C2 at a concrete environment. -/
theorem connection_close_discipline_witness :
    envMiss.selectErr = none ∧
    ((Cacher.getData sampleCacher "k" envMiss).closed = 1 ∧
     (Cacher.setData sampleCacher "k" { repr := "v" } 15 envMiss).closed = 1 ∧
     (Cacher.setTTL sampleCacher "k" 15 envMiss).closed =
       (match envMiss.getResp with
        | .error _ => 0
        | .ok _ => 1) ∧
     (Cacher.deleteData sampleCacher "k" envMiss).closed = 0) :=
  ⟨rfl, connection_close_discipline sampleCacher "k" { repr := "v" } 15
    envMiss rfl⟩

/-- C8: every command any of the four data operations sends to the store
addresses exactly the namespaced key, the prefix string, a colon, then the
unmodified logical key; `init` sets the prefix to the literal string
cacher and `setCachePrefix` overrides it. -/
theorem ops_address_namespaced_key (s : CacherState) (key : String)
    (data : Val) (ttl : Nat) (env : StoreEnv) (c : ConfigArg) (p : String) :
    ((Cacher.getData s key env).cmds.all
        (fun cmd => Cmd.key cmd == Cacher.hKeyLabel s key)) = true ∧
    ((Cacher.setData s key data ttl env).cmds.all
        (fun cmd => Cmd.key cmd == Cacher.hKeyLabel s key)) = true ∧
    ((Cacher.setTTL s key ttl env).cmds.all
        (fun cmd => Cmd.key cmd == Cacher.hKeyLabel s key)) = true ∧
    ((Cacher.deleteData s key env).cmds.all
        (fun cmd => Cmd.key cmd == Cacher.hKeyLabel s key)) = true ∧
    Cacher.hKeyLabel s key = jsStringOf s.cachePfx ++ ":" ++ key ∧
    (Cacher.init s c).cachePfx = some "cacher" ∧
    (Cacher.setCachePfx s p).cachePfx = some p := by
  refine ⟨?_, ?_, ?_, ?_, rfl, rfl, rfl⟩
  · cases hsel : env.selectErr with
    | some e => simp [Cacher.getData, hsel]
    | none =>
        cases hresp : env.getResp <;>
          simp [Cacher.getData, hsel, hresp, Cmd.key]
  · cases hsel : env.selectErr with
    | some e => simp [Cacher.setData, hsel]
    | none =>
        cases hw : env.setexErr <;> simp [Cacher.setData, hsel, hw, Cmd.key]
  · cases hsel : env.selectErr with
    | some e => simp [Cacher.setTTL, hsel]
    | none =>
        cases hresp : env.getResp with
        | error e => simp [Cacher.setTTL, hsel, hresp, Cmd.key]
        | ok r => cases r <;> simp [Cacher.setTTL, hsel, hresp, Cmd.key]
  · cases hsel : env.selectErr with
    | some e => simp [Cacher.deleteData, hsel]
    | none =>
        cases hd : env.delErr <;> simp [Cacher.deleteData, hsel, hd, Cmd.key]
